import Mathlib

/-!
Shallow embedding of `download_tickets.py` (TicketCSVDownloader): link
extraction from an email body, retried download of each link, and
header-aware aggregation of the downloaded CSV files.  External
collaborators (HTTP transport, CSV reader, header sniffer, clock) are
modelled as oracle parameters; the control flow, filtering, naming and
logging logic is translated from the source.
-/

namespace DTB

/-- Python `str.lower`, character by character. -/
def pyLower (s : String) : String := String.mk (s.data.map Char.toLower)

/-- Python `str.endswith`. -/
def pyEndsWith (s suffix : String) : Bool := suffix.data.isSuffixOf s.data

/-- Python `c in s` for a single character (`"." in filename`). -/
def pyContainsChar (s : String) (c : Char) : Bool := s.data.contains c

/-- Python `str.strip` with no argument: drop whitespace at both ends. -/
def pyStrip (s : String) : String :=
  String.mk ((s.data.dropWhile Char.isWhitespace).reverse.dropWhile
    Char.isWhitespace).reverse

/-- A quote character, as matched by the character class `["\x27]` in the
href-extraction pattern of `extract_csv_urls`. -/
def isQuoteChar (c : Char) : Bool := c == '"' || c == Char.ofNat 39

/-- Case-insensitive character comparison (`re.IGNORECASE`). -/
def lowEq (a b : Char) : Bool := a.toLower == b.toLower

/-- Case-insensitive literal prefix test over character lists. -/
def startsWithCI : List Char → List Char → Bool
  | [], _ => true
  | _ :: _, [] => false
  | p :: ps, c :: cs => lowEq p c && startsWithCI ps cs

/-- The literal `href=` of the extraction pattern. -/
def hrefLit : List Char := ['h', 'r', 'e', 'f', '=']

/-- Matcher for the tail `["\x27]([^"\x27]+)["\x27][^>]*>` of the pattern
`<a[^>]+href=["\x27]([^"\x27]+)["\x27][^>]*>`: an opening quote, a
nonempty greedy run of non-quote characters (the capture), a closing
quote, then a greedy run of non-`>` characters up to a closing `>`.
Returns the capture and the remaining input after the match. -/
def matchAfterHref (s : List Char) : Option (List Char × List Char) :=
  match s with
  | [] => none
  | q :: s4 =>
    if isQuoteChar q then
      let cap := s4.takeWhile (fun c => ! isQuoteChar c)
      let s5 := s4.dropWhile (fun c => ! isQuoteChar c)
      if cap.isEmpty then none
      else
        match s5 with
        | [] => none
        | _ :: s6 =>
          match s6.dropWhile (fun c => c != '>') with
          | [] => none
          | _ :: rest => some (cap, rest)
    else none

/-- Greedy backtracking for the `[^>]+` between `<a` and `href=`: try the
run length `k+1` first (longest), falling back to shorter runs, exactly as
a backtracking regex engine resolves `<a[^>]+href=`. -/
def tryHref (s2 : List Char) : Nat → Option (List Char × List Char)
  | 0 => none
  | k + 1 =>
    if startsWithCI hrefLit (s2.drop (k + 1)) then
      match matchAfterHref (s2.drop (k + 1 + 5)) with
      | some r => some r
      | none => tryHref s2 k
    else tryHref s2 k

/-- Attempt to match the anchor pattern at the head of the input.  The
input must begin with `<a` (case-insensitive); the maximal candidate run
for `[^>]+` is the maximal prefix of non-`>` characters. -/
def matchAt (s : List Char) : Option (List Char × List Char) :=
  match s with
  | '<' :: c :: s2 =>
    if c.toLower == 'a' then
      tryHref s2 (s2.takeWhile (fun x => x != '>')).length
    else none
  | _ => none

/-- Scan for successive non-overlapping leftmost matches, as `re.findall`
does: on a match continue after it, otherwise advance one character.  The
fuel is an upper bound on the number of scan steps; each step consumes at
least one character, so fuel equal to the input length suffices. -/
def findAllAux : Nat → List Char → List (List Char)
  | 0, _ => []
  | _ + 1, [] => []
  | fuel + 1, c :: rest =>
    match matchAt (c :: rest) with
    | some (cap, after) => cap :: findAllAux fuel after
    | none => findAllAux fuel rest

/-- All captures of `<a[^>]+href=["\x27]([^"\x27]+)["\x27][^>]*>` with
`re.IGNORECASE` over the body, in order of appearance (line 133 of the
source). -/
def findAnchorHrefs (body : String) : List String :=
  (findAllAux body.data.length body.data).map (fun l => String.mk l)

/-- Model of `extract_csv_urls`, body-level part (line 135): keep the hrefs whose
lowercased text ends in `.csv`, stripped of surrounding whitespace. -/
def extract_csv_urls_from_body (body : String) : List String :=
  let links := findAnchorHrefs body
  links.filterMap (fun url =>
    if pyEndsWith (pyLower url) ".csv" then some (pyStrip url) else none)

/-- Characters allowed in a URL scheme (`urllib.parse.scheme_chars`). -/
def schemeChars (c : Char) : Bool :=
  c.isAlpha || c.isDigit || c == '+' || c == '-' || c == '.'

/-- The `path` component produced by `urllib.parse.urlparse`: strip a
well-formed `scheme:`, then a `//netloc` up to the next `/`, `?` or `#`,
then drop the fragment (first `#`) and the query (first `?`). -/
def urlparsePath (url : String) : String :=
  let l := url.data
  let beforeColon := l.takeWhile (fun c => c != ':')
  let afterScheme :=
    if beforeColon.length < l.length && decide (0 < beforeColon.length) &&
       (match beforeColon with | c :: _ => c.isAlpha | [] => false) &&
       beforeColon.all schemeChars
    then l.drop (beforeColon.length + 1) else l
  let afterNetloc :=
    match afterScheme with
    | '/' :: '/' :: rest =>
      rest.dropWhile (fun c => c != '/' && c != '?' && c != '#')
    | _ => afterScheme
  let noFrag := afterNetloc.takeWhile (fun c => c != '#')
  String.mk (noFrag.takeWhile (fun c => c != '?'))

/-- Model of `os.path.basename` on POSIX: everything after the last `/`. -/
def basename (p : String) : String :=
  String.mk (p.data.reverse.takeWhile (fun c => c != '/')).reverse

/-- The extractor as the claim words it: filter the anchor hrefs by the
`.csv` suffix of the URL *path component* (spec-side definition, for
comparison with `extract_csv_urls_from_body`). -/
def extractCsvUrlsByPathSuffix (body : String) : List String :=
  (findAnchorHrefs body).filter
    (fun u => pyEndsWith (pyLower (urlparsePath u)) ".csv")

/-- Retry budget of `download_file` (`self.retry_attempts = 3`). -/
def retry_attempts : Nat := 3

/-- Fixed backoff of `download_file` in seconds (`self.retry_delay = 2`). -/
def retry_delay : Nat := 2

/-- Local filename derivation of `download_file` (lines 150-152): the
basename of the URL path, or `download_<now>.csv` when that basename is
empty or contains no dot.  `now` models `int(time.time())`. -/
def filenameFor (url : String) (now : Nat) : String :=
  let filename := basename (urlparsePath url)
  if filename == "" || !(pyContainsChar filename '.') then
    "download_" ++ toString now ++ ".csv"
  else filename

/-- Outcome of one attempt of the HTTP transport, as `download_file`
distinguishes them: a returned response with its status and payload, an
`HTTPError` with its code, a `URLError` with its reason, or any other
exception with its message. -/
inductive FetchOutcome where
  | resp (status : Nat) (payload : List Nat)
  | httpErr (code : Nat)
  | urlErr (reason : String)
  | exc (message : String)
deriving DecidableEq, Repr

/-- Result of one `download_file` call: the returned path (`None` on
failure), the bytes written to the local file if any, the log lines
emitted, and the sleeps performed (one entry per backoff, in seconds). -/
structure DownloadResult where
  result : Option String
  written : Option (List Nat)
  log : List String
  sleeps : List Nat
deriving DecidableEq, Repr

/-- The SUCCESS log line of `download_file` (line 164). -/
def successLine (url filename : String) : String :=
  "DOWNLOAD: " ++ url ++ " -> " ++ filename ++ " - SUCCESS"

/-- The FAILED log line of `download_file` (lines 171, 179, 187, 195). -/
def failLine (url filename msg : String) : String :=
  "DOWNLOAD: " ++ url ++ " -> " ++ filename ++ " - FAILED (" ++ msg ++ ")"

/-- The attempt loop of `download_file` (lines 156-198), over the list of
attempt numbers (`range(1, retry_attempts + 1)`).  A status-200 response
writes the payload and returns the path with one SUCCESS line; any other
outcome sleeps and retries while `attempt < retry_attempts`, and on the
last attempt returns failure with one FAILED line.  The `[]` case is the
`return None` after the loop (line 198), unreachable from the full list. -/
def attemptLoop (filepath url filename : String) (oracle : Nat → FetchOutcome) :
    List Nat → DownloadResult
  | [] => ⟨none, none, [], []⟩
  | attempt :: rest =>
    let r := attemptLoop filepath url filename oracle rest
    let retryOr := fun (msg : String) =>
      if attempt < retry_attempts then
        (⟨r.result, r.written, r.log, retry_delay :: r.sleeps⟩ : DownloadResult)
      else ⟨none, none, [failLine url filename msg], []⟩
    match oracle attempt with
    | .resp status payload =>
      if status == 200 then ⟨some filepath, some payload, [successLine url filename], []⟩
      else retryOr ("HTTP " ++ toString status)
    | .httpErr code => retryOr ("HTTP " ++ toString code)
    | .urlErr reason => retryOr reason
    | .exc message => retryOr message

/-- Model of `download_file` (lines 143-198): derive the local path, then run the
three attempts against the transport oracle (attempt number ↦ outcome). -/
def download_file (rawDir url : String) (now : Nat) (oracle : Nat → FetchOutcome) :
    DownloadResult :=
  let filename := filenameFor url now
  let filepath := rawDir ++ "/" ++ filename
  attemptLoop filepath url filename oracle [1, 2, 3]

/-- Whether an attempt outcome is the success case of `download_file`
(a response with status exactly 200). -/
def isSucc (o : FetchOutcome) : Bool :=
  match o with
  | .resp status _ => status == 200
  | _ => false

/-- Payload carried by a response outcome. -/
def payloadOf (o : FetchOutcome) : List Nat :=
  match o with
  | .resp _ payload => payload
  | _ => []

/-- The failure message `download_file` derives from an attempt outcome. -/
def failMsg (o : FetchOutcome) : String :=
  match o with
  | .resp status _ => "HTTP " ++ toString status
  | .httpErr code => "HTTP " ++ toString code
  | .urlErr reason => reason
  | .exc message => message

/-- The first of the three attempts whose outcome is a 200 response. -/
def firstSucc (oracle : Nat → FetchOutcome) : Option Nat :=
  if isSucc (oracle 1) then some 1
  else if isSucc (oracle 2) then some 2
  else if isSucc (oracle 3) then some 3
  else none

instance {ε α : Type} [DecidableEq ε] [DecidableEq α] : DecidableEq (Except ε α) := fun a b =>
  match a, b with
  | .error x, .error y => decidable_of_iff (x = y) (by simp)
  | .error _, .ok _ => isFalse (by simp)
  | .ok _, .error _ => isFalse (by simp)
  | .ok x, .ok y => decidable_of_iff (x = y) (by simp)

/-- One file of the raw-directory listing as the aggregator sees it: its
name, and the result of opening and reading it — an error message, or the
parsed rows together with the `csv.Sniffer().has_header` classification
(`False` when sniffing raised `csv.Error`). -/
structure AggInput where
  name : String
  read : Except String (List (List String) × Bool)
deriving DecidableEq, Repr

/-- Loop state of `aggregate_csv_files`: `header_written`, the rows
written to the combined file so far, `total_data_rows`, and the
aggregation log lines. -/
structure AggState where
  headerWritten : Bool
  out : List (List String)
  totalData : Nat
  log : List String
deriving DecidableEq, Repr

/-- The ADDED log line (line 252). -/
def addedLine (name : String) (n : Nat) : String :=
  name ++ " - ADDED (" ++ toString n ++ " rows)"

/-- The SKIPPED log line (line 235). -/
def skippedLine (name : String) : String := name ++ " - SKIPPED (empty)"

/-- The per-file FAILED log line (line 255). -/
def failedLine (name msg : String) : String :=
  name ++ " - FAILED (" ++ msg ++ ")"

/-- One iteration of the aggregation loop (lines 219-255): a read error
logs FAILED and continues; an empty row list logs SKIPPED and continues;
otherwise, if no header has been written the first row becomes the header
and the rest are data, else the first row is dropped exactly when the file
was classified as headered. -/
def aggStep (s : AggState) (f : AggInput) : AggState :=
  match f.read with
  | .error e => ⟨s.headerWritten, s.out, s.totalData, s.log ++ [failedLine f.name e]⟩
  | .ok (rows, hasHeader) =>
    match rows with
    | [] => ⟨s.headerWritten, s.out, s.totalData, s.log ++ [skippedLine f.name]⟩
    | r0 :: rest =>
      if s.headerWritten then
        let dataRows := if hasHeader then rest else r0 :: rest
        ⟨true, s.out ++ dataRows, s.totalData + dataRows.length,
          s.log ++ [addedLine f.name dataRows.length]⟩
      else
        ⟨true, s.out ++ r0 :: rest, s.totalData + rest.length,
          s.log ++ [addedLine f.name rest.length]⟩

/-- The listing filter of line 205: names ending in `.csv`, lowercased. -/
def csvNamed (f : AggInput) : Bool := pyEndsWith (pyLower f.name) ".csv"

/-- Result of `aggregate_csv_files`: the contents of the combined file
(`none` when it was never created) and the aggregation log. -/
structure AggResult where
  combined : Option (List (List String))
  log : List String
deriving DecidableEq, Repr

/-- The FINAL summary line (line 258). -/
def finalLine (outputName : String) (n : Nat) : String :=
  "FINAL: combined_" ++ outputName ++ ".csv - CREATED (" ++ toString n ++ " rows)"

/-- Model of `aggregate_csv_files` (lines 200-262): filter the listing to
`.csv`-named files; with none, log one line and create nothing; otherwise
the combined file is opened (and hence exists) before the loop, the loop
folds over the files, and a FINAL line reports data rows plus one for the
header when one was written. -/
def aggregate_csv_files (outputName : String) (listing : List AggInput) : AggResult :=
  let csvFiles := listing.filter csvNamed
  if csvFiles.isEmpty then ⟨none, ["No CSV files to aggregate."]⟩
  else
    let s := csvFiles.foldl aggStep ⟨false, [], 0, []⟩
    let finalCount := s.totalData + (if s.headerWritten then 1 else 0)
    ⟨some s.out, s.log ++ [finalLine outputName finalCount]⟩

/-- Rows of an aggregation input (empty for a read error). -/
def fileRows (f : AggInput) : List (List String) :=
  match f.read with
  | .ok p => p.1
  | .error _ => []

/-- The log line the aggregation loop emits for a file it skips: FAILED
for a read error, SKIPPED for an empty file. -/
def skipLine (f : AggInput) : String :=
  match f.read with
  | .error m => failedLine f.name m
  | .ok _ => skippedLine f.name

/-- The header/rows/count projection of the loop state (everything except
the log). -/
def coreS (s : AggState) : Bool × List (List String) × Nat :=
  (s.headerWritten, s.out, s.totalData)

/-- The action of `aggStep` on the `coreS` projection. -/
def coreStep (c : Bool × List (List String) × Nat) (f : AggInput) :
    Bool × List (List String) × Nat :=
  match f.read with
  | .error _ => c
  | .ok (rows, hasHeader) =>
    match rows with
    | [] => c
    | r0 :: rest =>
      if c.1 then
        let dataRows := if hasHeader then rest else r0 :: rest
        (true, c.2.1 ++ dataRows, c.2.2 + dataRows.length)
      else (true, c.2.1 ++ r0 :: rest, c.2.2 + rest.length)

/-- Writing a file into a directory modelled as a map from paths to
contents: the write replaces whatever was at that path. -/
def fsWrite (dir : String → Option (List Nat)) (k : String) (v : List Nat) :
    String → Option (List Nat) :=
  fun q => if q = k then some v else dir q

/-- Writing a file into a directory listing (name, bytes): replace the
entry with the same name if present, otherwise append. -/
def upsert (dir : List (String × List Nat)) (k : String) (v : List Nat) :
    List (String × List Nat) :=
  match dir with
  | [] => [(k, v)]
  | (k0, v0) :: rest => if k0 == k then (k, v) :: rest else (k0, v0) :: upsert rest k v

/-- Observable outcome of one `run` invocation: the operator-visible
console lines about link/download outcomes, the raw directory contents,
the download log, the number of successful downloads, whether
`aggregate_csv_files` was invoked, and its result when it was. -/
structure RunOutcome where
  console : List String
  rawDir : List (String × List Nat)
  downloadLog : List String
  downloadedCount : Nat
  aggregated : Bool
  aggResult : Option AggResult
deriving DecidableEq, Repr

/-- The early-exit console line of `run` (line 274). -/
def noUrlsLine : String := " No .csv URLs found in email."

/-- The download summary console line of `run` (line 284). -/
def downloadedLine (k n : Nat) : String :=
  " Downloaded " ++ toString k ++ " out of " ++ toString n ++ " files."

/-- The download phase of `run` (lines 278-282): one `download_file` call
per URL, sequentially; a success writes the payload into the raw
directory and is counted, a failure leaves it unchanged.  `fetch i` is
the transport oracle for the `i`-th URL. -/
def runDownloads (rawDir : String) (now : Nat) (fetch : Nat → Nat → FetchOutcome) :
    List String → Nat → List (String × List Nat) × List String × Nat →
    List (String × List Nat) × List String × Nat
  | [], _, acc => acc
  | url :: rest, i, (dir, dlog, count) =>
    let r := download_file rawDir url now (fetch i)
    match r.result, r.written with
    | some _, some payload =>
      runDownloads rawDir now fetch rest (i + 1)
        (upsert dir (filenameFor url now) payload, dlog ++ r.log, count + 1)
    | _, _ => runDownloads rawDir now fetch rest (i + 1) (dir, dlog ++ r.log, count)

/-- Model of `run` (lines 264-288): extract the URLs from the body; with none,
report and stop before downloading or aggregating; otherwise download
each URL, report the count, and aggregate the raw directory once, the
CSV-reader oracle `readCsv` supplying each downloaded file's parsed rows
and header classification. -/
def run (runName rawDir : String) (body : String) (now : Nat)
    (fetch : Nat → Nat → FetchOutcome)
    (readCsv : String → List Nat → Except String (List (List String) × Bool)) :
    RunOutcome :=
  let urls := extract_csv_urls_from_body body
  if urls.isEmpty then ⟨[noUrlsLine], [], [], 0, false, none⟩
  else
    let (dir, dlog, count) := runDownloads rawDir now fetch urls 0 ([], [], 0)
    let listing := dir.map (fun p => AggInput.mk p.1 (readCsv p.1 p.2))
    let ar := aggregate_csv_files runName listing
    ⟨[downloadedLine count urls.length], dir, dlog, count, true, some ar⟩

/-! Helper lemmas shared by the claim theorems. -/

theorem filterMap_if_eq_filter_map (p : String → Bool) (g : String → String)
    (l : List String) :
    l.filterMap (fun u => if p u then some (g u) else none) =
      (l.filter p).map g := by
  induction l with
  | nil => rfl
  | cons a rest ih =>
    by_cases h : p a <;> simp [List.filterMap_cons, List.filter_cons, h, ih]

theorem attemptLoop_congr (fp url fn : String) (o1 o2 : Nat → FetchOutcome) :
    ∀ l : List Nat, (∀ a ∈ l, o1 a = o2 a) →
      attemptLoop fp url fn o1 l = attemptLoop fp url fn o2 l := by
  intro l
  induction l with
  | nil => intro _; rfl
  | cons a rest ih =>
    intro h
    simp only [attemptLoop]
    rw [h a (by simp), ih (fun b hb => h b (by simp [hb]))]

theorem attemptLoop_cons (fp url fn : String) (oracle : Nat → FetchOutcome)
    (a : Nat) (rest : List Nat) :
    attemptLoop fp url fn oracle (a :: rest) =
      if isSucc (oracle a) then
        ⟨some fp, some (payloadOf (oracle a)), [successLine url fn], []⟩
      else if a < retry_attempts then
        ⟨(attemptLoop fp url fn oracle rest).result,
         (attemptLoop fp url fn oracle rest).written,
         (attemptLoop fp url fn oracle rest).log,
         retry_delay :: (attemptLoop fp url fn oracle rest).sleeps⟩
      else ⟨none, none, [failLine url fn (failMsg (oracle a))], []⟩ := by
  cases ho : oracle a with
  | resp s d =>
    by_cases hs : (s == 200) = true <;>
      simp [attemptLoop, ho, hs, isSucc, payloadOf, failMsg]
  | httpErr c => simp [attemptLoop, ho, isSucc, failMsg]
  | urlErr r => simp [attemptLoop, ho, isSucc, failMsg]
  | exc m => simp [attemptLoop, ho, isSucc, failMsg]

theorem download_file_spec (rawDir url : String) (now : Nat)
    (oracle : Nat → FetchOutcome) :
    download_file rawDir url now oracle =
      match firstSucc oracle with
      | some i =>
        ⟨some (rawDir ++ "/" ++ filenameFor url now), some (payloadOf (oracle i)),
         [successLine url (filenameFor url now)], List.replicate (i - 1) retry_delay⟩
      | none =>
        ⟨none, none, [failLine url (filenameFor url now) (failMsg (oracle 3))],
         [retry_delay, retry_delay]⟩ := by
  show attemptLoop (rawDir ++ "/" ++ filenameFor url now) url (filenameFor url now)
      oracle [1, 2, 3] = _
  rw [attemptLoop_cons, attemptLoop_cons, attemptLoop_cons]
  unfold firstSucc
  cases h1 : isSucc (oracle 1) <;> cases h2 : isSucc (oracle 2) <;>
    cases h3 : isSucc (oracle 3) <;>
    simp [h1, h2, h3, retry_attempts, retry_delay, attemptLoop, List.replicate]

theorem aggStep_out_mono (s : AggState) (f : AggInput) :
    ∃ e, (aggStep s f).out = s.out ++ e := by
  cases hr : f.read with
  | error m => exact ⟨[], by simp [aggStep, hr]⟩
  | ok p =>
    obtain ⟨rows, hh⟩ := p
    cases rows with
    | nil => exact ⟨[], by simp [aggStep, hr]⟩
    | cons r0 rs =>
      by_cases hw : s.headerWritten
      · exact ⟨if hh then rs else r0 :: rs, by simp [aggStep, hr, hw]⟩
      · exact ⟨r0 :: rs, by simp [aggStep, hr, hw]⟩

theorem foldl_aggStep_out_mono (l : List AggInput) :
    ∀ s : AggState, ∃ e, (l.foldl aggStep s).out = s.out ++ e := by
  induction l with
  | nil => intro s; exact ⟨[], by simp⟩
  | cons f rest ih =>
    intro s
    obtain ⟨e1, he1⟩ := aggStep_out_mono s f
    obtain ⟨e2, he2⟩ := ih (aggStep s f)
    exact ⟨e1 ++ e2, by rw [List.foldl_cons, he2, he1, List.append_assoc]⟩

theorem aggStep_log_mono (s : AggState) (f : AggInput) :
    ∃ e, (aggStep s f).log = s.log ++ e := by
  cases hr : f.read with
  | error m => exact ⟨[failedLine f.name m], by simp [aggStep, hr]⟩
  | ok p =>
    obtain ⟨rows, hh⟩ := p
    cases rows with
    | nil => exact ⟨[skippedLine f.name], by simp [aggStep, hr]⟩
    | cons r0 rs =>
      by_cases hw : s.headerWritten
      · exact ⟨[addedLine f.name (if hh then rs else r0 :: rs).length],
          by simp [aggStep, hr, hw]⟩
      · exact ⟨[addedLine f.name rs.length], by simp [aggStep, hr, hw]⟩

theorem foldl_aggStep_log_mono (l : List AggInput) :
    ∀ s : AggState, ∃ e, (l.foldl aggStep s).log = s.log ++ e := by
  induction l with
  | nil => intro s; exact ⟨[], by simp⟩
  | cons f rest ih =>
    intro s
    obtain ⟨e1, he1⟩ := aggStep_log_mono s f
    obtain ⟨e2, he2⟩ := ih (aggStep s f)
    exact ⟨e1 ++ e2, by rw [List.foldl_cons, he2, he1, List.append_assoc]⟩

theorem foldl_aggStep_headered (l : List AggInput) :
    ∀ s : AggState, s.headerWritten = true →
    (∀ f ∈ l, ∃ rows, f.read = Except.ok (rows, true) ∧ rows ≠ []) →
    (l.foldl aggStep s).out.length =
      s.out.length + ((l.map (fun f => (fileRows f).length - 1)).sum) ∧
    (l.foldl aggStep s).headerWritten = true := by
  induction l with
  | nil => intro s hs _; simp [hs]
  | cons f rest ih =>
    intro s hs h
    obtain ⟨rows, hr, hne⟩ := h f (by simp)
    obtain ⟨r0, rs, rfl⟩ : ∃ r0 rs, rows = r0 :: rs := by
      cases rows with
      | nil => exact absurd rfl hne
      | cons r0 rs => exact ⟨r0, rs, rfl⟩
    have hstep : aggStep s f =
        ⟨true, s.out ++ rs, s.totalData + rs.length,
          s.log ++ [addedLine f.name rs.length]⟩ := by
      simp [aggStep, hr, hs]
    rw [List.foldl_cons, hstep]
    obtain ⟨h1, h2⟩ := ih ⟨true, s.out ++ rs, s.totalData + rs.length,
      s.log ++ [addedLine f.name rs.length]⟩ rfl
      (fun g hg => h g (by simp [hg]))
    refine ⟨?_, h2⟩
    rw [h1]
    simp [fileRows, hr]
    omega

theorem coreS_aggStep (s : AggState) (f : AggInput) :
    coreS (aggStep s f) = coreStep (coreS s) f := by
  cases hr : f.read with
  | error m => simp [aggStep, coreStep, coreS, hr]
  | ok p =>
    obtain ⟨rows, hh⟩ := p
    cases rows with
    | nil => simp [aggStep, coreStep, coreS, hr]
    | cons r0 rs =>
      by_cases hw : s.headerWritten <;>
        simp [aggStep, coreStep, coreS, hr, hw]

theorem coreS_foldl (l : List AggInput) :
    ∀ s : AggState, coreS (l.foldl aggStep s) = l.foldl coreStep (coreS s) := by
  induction l with
  | nil => intro s; rfl
  | cons f rest ih =>
    intro s
    rw [List.foldl_cons, List.foldl_cons, ih, coreS_aggStep]

theorem coreStep_noop (c : Bool × List (List String) × Nat) (e : AggInput)
    (h : fileRows e = []) : coreStep c e = c := by
  cases hr : e.read with
  | error m => simp [coreStep, hr]
  | ok p =>
    obtain ⟨rows, hh⟩ := p
    have hrow : rows = [] := by simpa [fileRows, hr] using h
    subst hrow
    simp [coreStep, hr]

theorem aggStep_skip_log (s : AggState) (e : AggInput) (h : fileRows e = []) :
    (aggStep s e).log = s.log ++ [skipLine e] := by
  cases hr : e.read with
  | error m => simp [aggStep, skipLine, hr]
  | ok p =>
    obtain ⟨rows, hh⟩ := p
    have hrow : rows = [] := by simpa [fileRows, hr] using h
    subst hrow
    simp [aggStep, skipLine, hr]

/-! Claim theorems. -/

/-- C3, counterexample: for a body whose single anchor href is
`http://x/a.csv?y=1`, the URL's path component ends in `.csv`, so the
claim's extractor keeps it, but `extract_csv_urls_from_body` (which tests
the suffix of the whole URL string) returns the empty list. -/
theorem c3_counterexample :
    extract_csv_urls_from_body "<a href=\"http://x/a.csv?y=1\">dl</a>" = [] ∧
    extractCsvUrlsByPathSuffix "<a href=\"http://x/a.csv?y=1\">dl</a>" =
      ["http://x/a.csv?y=1"] ∧
    pyEndsWith (pyLower (urlparsePath "http://x/a.csv?y=1")) ".csv" = true := by
  refine ⟨by decide, by decide, by decide⟩

/-- C3 (amended): for every message body, the extractor returns exactly
the anchor-style hyperlink targets whose *entire URL string* ends in the
case-insensitive suffix `.csv` (not the URL path component), each
stripped of surrounding whitespace, in order of appearance and without
deduplication. -/
theorem c3_extract_filters_full_url (body : String) :
    extract_csv_urls_from_body body =
      ((findAnchorHrefs body).filter
        (fun u => pyEndsWith (pyLower u) ".csv")).map pyStrip :=
  filterMap_if_eq_filter_map (fun u => pyEndsWith (pyLower u) ".csv") pyStrip
    (findAnchorHrefs body)

/-- C8: for every hyperlink whose URL path yields an empty basename or a
basename without a dot, the stored filename is synthesized from the
current time and still ends in `.csv`. -/
theorem c8_synthesized_name_ends_csv (url : String) (now : Nat)
    (h : basename (urlparsePath url) = "" ∨
      pyContainsChar (basename (urlparsePath url)) '.' = false) :
    filenameFor url now = "download_" ++ toString now ++ ".csv" ∧
    ∃ p, filenameFor url now = p ++ ".csv" := by
  have hc : filenameFor url now = "download_" ++ toString now ++ ".csv" := by
    rcases h with h | h <;> simp [filenameFor, h]
  exact ⟨hc, "download_" ++ toString now, hc⟩

/-- C8 witness: the URL `http://x/` has an empty path basename, so at
time 7 the stored name is the synthesized `download_7.csv`. -/
theorem c8_witness :
    filenameFor "http://x/" 7 = "download_" ++ toString 7 ++ ".csv" ∧
    ∃ p, filenameFor "http://x/" 7 = p ++ ".csv" :=
  c8_synthesized_name_ends_csv "http://x/" 7 (Or.inl (by decide))

/-- C10: two distinct links whose URL paths share the same nonempty,
dot-containing final segment derive the identical local file path, and a
later write to that path replaces the earlier one in the directory. -/
theorem c10_same_basename_overwrites (rawDir u1 u2 : String) (t1 t2 : Nat)
    (hne : u1 ≠ u2)
    (heq : basename (urlparsePath u1) = basename (urlparsePath u2))
    (hnz : basename (urlparsePath u1) ≠ "")
    (hdot : pyContainsChar (basename (urlparsePath u1)) '.' = true) :
    filenameFor u1 t1 = filenameFor u2 t2 ∧
    rawDir ++ "/" ++ filenameFor u1 t1 = rawDir ++ "/" ++ filenameFor u2 t2 ∧
    ∀ (dir : String → Option (List Nat)) (d1 d2 : List Nat),
      fsWrite (fsWrite dir (rawDir ++ "/" ++ filenameFor u1 t1) d1)
          (rawDir ++ "/" ++ filenameFor u2 t2) d2
          (rawDir ++ "/" ++ filenameFor u1 t1) = some d2 := by
  have h1 : filenameFor u1 t1 = basename (urlparsePath u1) := by
    simp [filenameFor, hdot, hnz]
  have hnz2 : basename (urlparsePath u2) ≠ "" := heq ▸ hnz
  have hdot2 : pyContainsChar (basename (urlparsePath u2)) '.' = true := heq ▸ hdot
  have h2 : filenameFor u2 t2 = basename (urlparsePath u2) := by
    simp [filenameFor, hdot2, hnz2]
  have hf : filenameFor u1 t1 = filenameFor u2 t2 := by rw [h1, h2, heq]
  refine ⟨hf, by rw [hf], ?_⟩
  intro dir d1 d2
  rw [hf]
  simp [fsWrite]

/-- C10 witness: `http://a/data.csv` and `http://b/sub/data.csv` share
the basename `data.csv`, derive the same local path, and the second
successful download's bytes are what the directory holds at that path. -/
theorem c10_witness :
    filenameFor "http://a/data.csv" 1 = filenameFor "http://b/sub/data.csv" 2 ∧
    fsWrite (fsWrite (fun _ => none)
        ("raw" ++ "/" ++ filenameFor "http://a/data.csv" 1) [1])
        ("raw" ++ "/" ++ filenameFor "http://b/sub/data.csv" 2) [2]
        ("raw" ++ "/" ++ filenameFor "http://a/data.csv" 1) = some [2] := by
  have h := c10_same_basename_overwrites "raw" "http://a/data.csv"
    "http://b/sub/data.csv" 1 2 (by decide) (by decide) (by decide) (by decide)
  exact ⟨h.1, h.2.2 (fun _ => none) [1] [2]⟩

/-- C4, counterexample: a raw directory holding a single empty `.csv`
file yields a created (empty) combined file, although no non-empty input
was aggregated. -/
theorem c4_counterexample :
    (aggregate_csv_files "t" [⟨"empty.csv", Except.ok ([], true)⟩]).combined =
      some [] ∧
    fileRows ⟨"empty.csv", Except.ok ([], true)⟩ = [] := by
  refine ⟨by decide, by decide⟩

/-- C4 (amended): the combined file exists if and only if the raw
directory listing holds at least one `.csv`-named file (the file is
created, possibly empty, before any input is read); when no file matches,
the aggregator emits the single log line and creates nothing. -/
theorem c4_combined_iff_csv_file (outputName : String) (listing : List AggInput) :
    ((aggregate_csv_files outputName listing).combined.isSome =
      !(listing.filter csvNamed).isEmpty) ∧
    ((listing.filter csvNamed).isEmpty = true →
      (aggregate_csv_files outputName listing).log =
        ["No CSV files to aggregate."]) := by
  cases h : (listing.filter csvNamed).isEmpty <;>
    simp [aggregate_csv_files, h]

/-- C4 witness: an empty listing creates no combined file and logs the
single line; a listing holding one (empty) `.csv` file creates one. -/
theorem c4_witness :
    (aggregate_csv_files "t" ([] : List AggInput)).combined.isSome = false ∧
    (aggregate_csv_files "t" ([] : List AggInput)).log =
      ["No CSV files to aggregate."] ∧
    (aggregate_csv_files "t"
      [⟨"e.csv", Except.ok ([], false)⟩]).combined.isSome = true :=
  ⟨(c4_combined_iff_csv_file "t" []).1.trans (by decide),
   (c4_combined_iff_csv_file "t" []).2 (by decide),
   (c4_combined_iff_csv_file "t" [⟨"e.csv", Except.ok ([], false)⟩]).1.trans
     (by decide)⟩

/-- C2: aggregating a non-empty listing of `.csv`-named, non-empty files
all classified as headered yields a combined file of exactly one header
row — the first file's first row — followed by the sum over the files of
(row count − 1) data rows. -/
theorem c2_all_headered (outputName : String) (f0 : AggInput) (rest : List AggInput)
    (hcsv : ∀ f ∈ f0 :: rest, csvNamed f = true)
    (hok : ∀ f ∈ f0 :: rest, ∃ rows, f.read = Except.ok (rows, true) ∧ rows ≠ []) :
    (aggregate_csv_files outputName (f0 :: rest)).combined.map List.length =
      some (1 + (((f0 :: rest).map (fun f => (fileRows f).length - 1)).sum)) ∧
    ((aggregate_csv_files outputName (f0 :: rest)).combined.bind List.head?) =
      (fileRows f0).head? := by
  have hfil : (f0 :: rest).filter csvNamed = f0 :: rest :=
    List.filter_eq_self.mpr hcsv
  obtain ⟨rows0, hr0, hne0⟩ := hok f0 (by simp)
  obtain ⟨r0, rs, rfl⟩ : ∃ r0 rs, rows0 = r0 :: rs := by
    cases rows0 with
    | nil => exact absurd rfl hne0
    | cons r0 rs => exact ⟨r0, rs, rfl⟩
  have hcomb : (aggregate_csv_files outputName (f0 :: rest)).combined =
      some (((f0 :: rest).foldl aggStep ⟨false, [], 0, []⟩).out) := by
    simp [aggregate_csv_files, hfil]
  have hstep0 : aggStep ⟨false, [], 0, []⟩ f0 =
      ⟨true, r0 :: rs, rs.length, [addedLine f0.name rs.length]⟩ := by
    simp [aggStep, hr0]
  constructor
  · rw [hcomb, List.foldl_cons, hstep0]
    obtain ⟨hlen, _⟩ := foldl_aggStep_headered rest
      ⟨true, r0 :: rs, rs.length, [addedLine f0.name rs.length]⟩ rfl
      (fun g hg => hok g (by simp [hg]))
    simp [hlen, fileRows, hr0]
    omega
  · rw [hcomb, List.foldl_cons, hstep0]
    obtain ⟨e, he⟩ := foldl_aggStep_out_mono rest
      ⟨true, r0 :: rs, rs.length, [addedLine f0.name rs.length]⟩
    rw [he]
    simp [fileRows, hr0]

/-- C2 witness: two headered `.csv` files of 2 and 3 rows aggregate to a
combined file of 1 + (1 + 2) rows headed by the first file's header. -/
theorem c2_witness :
    (aggregate_csv_files "t"
      [⟨"a.csv", Except.ok ([["h"], ["1"]], true)⟩,
       ⟨"b.csv", Except.ok ([["h"], ["2"], ["3"]], true)⟩]).combined.map
        List.length =
      some (1 + ((([⟨"a.csv", Except.ok ([["h"], ["1"]], true)⟩,
        ⟨"b.csv", Except.ok ([["h"], ["2"], ["3"]], true)⟩] : List AggInput).map
          (fun f => (fileRows f).length - 1)).sum)) ∧
    ((aggregate_csv_files "t"
      [⟨"a.csv", Except.ok ([["h"], ["1"]], true)⟩,
       ⟨"b.csv", Except.ok ([["h"], ["2"], ["3"]], true)⟩]).combined.bind
        List.head?) =
      (fileRows ⟨"a.csv", Except.ok ([["h"], ["1"]], true)⟩).head? :=
  c2_all_headered "t" ⟨"a.csv", Except.ok ([["h"], ["1"]], true)⟩
    [⟨"b.csv", Except.ok ([["h"], ["2"], ["3"]], true)⟩]
    (by
      intro f hf
      simp only [List.mem_cons, List.not_mem_nil, or_false] at hf
      rcases hf with rfl | rfl <;> decide)
    (by
      intro f hf
      simp only [List.mem_cons, List.not_mem_nil, or_false] at hf
      rcases hf with rfl | rfl
      · exact ⟨[["h"], ["1"]], rfl, by simp⟩
      · exact ⟨[["h"], ["2"], ["3"]], rfl, by simp⟩)

/-- C1, counterexample: a non-headered 2-row file processed before a
headered 2-row file yields a combined file of 3 rows, not the
1 + (M−1) + M = 4 rows the claim asserts for either processing order
(the first file's first data row is promoted to header). -/
theorem c1_counterexample :
    ((aggregate_csv_files "t"
      [⟨"b.csv", Except.ok ([["x1", "x2"], ["y1", "y2"]], false)⟩,
       ⟨"a.csv", Except.ok ([["h1", "h2"], ["a1", "a2"]], true)⟩]).combined.map
        List.length = some 3) ∧
    ¬ ((aggregate_csv_files "t"
      [⟨"b.csv", Except.ok ([["x1", "x2"], ["y1", "y2"]], false)⟩,
       ⟨"a.csv", Except.ok ([["h1", "h2"], ["a1", "a2"]], true)⟩]).combined.map
        List.length = some (1 + (2 - 1) + 2)) := by
  refine ⟨by decide, by decide⟩

/-- C1 (amended): for one headered file A and one non-headered file B of
equal row count M ≥ 1, aggregating in order A, B yields 1 + (M−1) + M
rows headed by A's first row, as the claim states; but in order B, A it
yields 1 + (M−1) + (M−1) rows headed by B's first row, because the first
file processed always loses its first row to the header slot. -/
theorem c1_mixed_pair_order (outputName nA nB : String)
    (rowsA rowsB : List (List String)) (M : Nat)
    (hA : pyEndsWith (pyLower nA) ".csv" = true)
    (hB : pyEndsWith (pyLower nB) ".csv" = true)
    (hMA : rowsA.length = M) (hMB : rowsB.length = M) (hM : 1 ≤ M) :
    ((aggregate_csv_files outputName
        [⟨nA, Except.ok (rowsA, true)⟩, ⟨nB, Except.ok (rowsB, false)⟩]).combined.map
          List.length = some (1 + (M - 1) + M) ∧
      ((aggregate_csv_files outputName
        [⟨nA, Except.ok (rowsA, true)⟩, ⟨nB, Except.ok (rowsB, false)⟩]).combined.bind
          List.head?) = rowsA.head?) ∧
    ((aggregate_csv_files outputName
        [⟨nB, Except.ok (rowsB, false)⟩, ⟨nA, Except.ok (rowsA, true)⟩]).combined.map
          List.length = some (1 + (M - 1) + (M - 1)) ∧
      ((aggregate_csv_files outputName
        [⟨nB, Except.ok (rowsB, false)⟩, ⟨nA, Except.ok (rowsA, true)⟩]).combined.bind
          List.head?) = rowsB.head?) := by
  obtain ⟨a0, as, rfl⟩ : ∃ a0 as, rowsA = a0 :: as := by
    cases rowsA with
    | nil => simp at hMA; omega
    | cons a0 as => exact ⟨a0, as, rfl⟩
  obtain ⟨b0, bs, rfl⟩ : ∃ b0 bs, rowsB = b0 :: bs := by
    cases rowsB with
    | nil => simp at hMB; omega
    | cons b0 bs => exact ⟨b0, bs, rfl⟩
  simp only [List.length_cons] at hMA hMB
  refine ⟨⟨?_, ?_⟩, ?_, ?_⟩ <;>
    simp [aggregate_csv_files, csvNamed, hA, hB, aggStep, List.filter_cons] <;>
    omega

/-- C1 witness: with M = 2, order (headered, non-headered) gives 4 rows
headed by the headered file's header; order (non-headered, headered)
gives 3 rows headed by the non-headered file's first data row. -/
theorem c1_witness :
    ((aggregate_csv_files "t"
        [⟨"a.csv", Except.ok ([["h1"], ["a1"]], true)⟩,
         ⟨"b.csv", Except.ok ([["x1"], ["y1"]], false)⟩]).combined.map
          List.length = some (1 + (2 - 1) + 2) ∧
      ((aggregate_csv_files "t"
        [⟨"a.csv", Except.ok ([["h1"], ["a1"]], true)⟩,
         ⟨"b.csv", Except.ok ([["x1"], ["y1"]], false)⟩]).combined.bind
          List.head?) = ([["h1"], ["a1"]] : List (List String)).head?) ∧
    ((aggregate_csv_files "t"
        [⟨"b.csv", Except.ok ([["x1"], ["y1"]], false)⟩,
         ⟨"a.csv", Except.ok ([["h1"], ["a1"]], true)⟩]).combined.map
          List.length = some (1 + (2 - 1) + (2 - 1)) ∧
      ((aggregate_csv_files "t"
        [⟨"b.csv", Except.ok ([["x1"], ["y1"]], false)⟩,
         ⟨"a.csv", Except.ok ([["h1"], ["a1"]], true)⟩]).combined.bind
          List.head?) = ([["x1"], ["y1"]] : List (List String)).head?) :=
  c1_mixed_pair_order "t" "a.csv" "b.csv" [["h1"], ["a1"]] [["x1"], ["y1"]] 2
    (by decide) (by decide) (by decide) (by decide) (by decide)

/-- C5, counterexample: a transport that answers every attempt with a
2xx status other than 200 (here 201, a successful status by the claim's
"non-2xx" taxonomy) is nevertheless retried and ends in Failure with a
FAILED log line, contradicting "returns Success as soon as an attempt
succeeds" read with success = 2xx. -/
theorem c5_counterexample :
    (download_file "out/raw" "http://x/t.csv" 0
      (fun _ => FetchOutcome.resp 201 [])).result = none ∧
    (download_file "out/raw" "http://x/t.csv" 0
      (fun _ => FetchOutcome.resp 201 [])).log =
      [failLine "http://x/t.csv" "t.csv" "HTTP 201"] ∧
    (download_file "out/raw" "http://x/t.csv" 0
      (fun _ => FetchOutcome.resp 201 [])).sleeps = [2, 2] ∧
    (200 ≤ 201 ∧ 201 < 300) := by
  refine ⟨by decide, by decide, by decide, by decide⟩

/-- C5 (amended): per link, at most 3 attempts (the result depends only
on the outcomes of attempts 1-3); an attempt succeeds exactly when its
response status is 200 (not any 2xx); the first such attempt returns
Success at once with exactly one SUCCESS line and one 2-second sleep per
preceding failed attempt; if all 3 attempts fail the result is Failure
with exactly one FAILED line (naming the last attempt's error) and two
2-second sleeps. -/
theorem c5_retry_behaviour (rawDir url : String) (now : Nat)
    (oracle : Nat → FetchOutcome) :
    (download_file rawDir url now oracle =
      match firstSucc oracle with
      | some i =>
        ⟨some (rawDir ++ "/" ++ filenameFor url now), some (payloadOf (oracle i)),
         [successLine url (filenameFor url now)], List.replicate (i - 1) retry_delay⟩
      | none =>
        ⟨none, none, [failLine url (filenameFor url now) (failMsg (oracle 3))],
         [retry_delay, retry_delay]⟩) ∧
    (∀ oracle2 : Nat → FetchOutcome, oracle 1 = oracle2 1 → oracle 2 = oracle2 2 →
      oracle 3 = oracle2 3 →
      download_file rawDir url now oracle = download_file rawDir url now oracle2) := by
  refine ⟨download_file_spec rawDir url now oracle, ?_⟩
  intro oracle2 e1 e2 e3
  show attemptLoop (rawDir ++ "/" ++ filenameFor url now) url (filenameFor url now)
      oracle [1, 2, 3] = attemptLoop (rawDir ++ "/" ++ filenameFor url now) url
      (filenameFor url now) oracle2 [1, 2, 3]
  refine attemptLoop_congr _ _ _ oracle oracle2 [1, 2, 3] ?_
  intro a ha
  simp only [List.mem_cons, List.not_mem_nil, or_false] at ha
  rcases ha with rfl | rfl | rfl
  · exact e1
  · exact e2
  · exact e3

/-- C5 witness: a transport failing twice then succeeding on attempt 3
returns Success with one SUCCESS line and two sleeps, as the equation
describes, and the result is unchanged under any transport agreeing on
the three attempts. -/
theorem c5_witness :
    download_file "out/raw" "http://x/t.csv" 0
        (fun i => if i == 3 then FetchOutcome.resp 200 [7]
          else FetchOutcome.urlErr "timed out") =
      ⟨some ("out/raw" ++ "/" ++ filenameFor "http://x/t.csv" 0), some [7],
       [successLine "http://x/t.csv" (filenameFor "http://x/t.csv" 0)],
       List.replicate (3 - 1) retry_delay⟩ ∧
    download_file "out/raw" "http://x/t.csv" 0
        (fun i => if i == 3 then FetchOutcome.resp 200 [7]
          else FetchOutcome.urlErr "timed out") =
      download_file "out/raw" "http://x/t.csv" 0
        (fun i => if 3 ≤ i then FetchOutcome.resp 200 [7]
          else FetchOutcome.urlErr "timed out") :=
  ⟨((c5_retry_behaviour "out/raw" "http://x/t.csv" 0
      (fun i => if i == 3 then FetchOutcome.resp 200 [7]
        else FetchOutcome.urlErr "timed out")).1).trans (by decide),
   (c5_retry_behaviour "out/raw" "http://x/t.csv" 0
      (fun i => if i == 3 then FetchOutcome.resp 200 [7]
        else FetchOutcome.urlErr "timed out")).2
     (fun i => if 3 ≤ i then FetchOutcome.resp 200 [7]
       else FetchOutcome.urlErr "timed out") (by decide) (by decide) (by decide)⟩

/-- C9: a failed `download_file` call writes nothing to the local target
file — the write happens only inside the status-200 branch, after the
full payload is read — so the raw directory is unchanged by the call. -/
theorem c9_failure_writes_nothing (rawDir url : String) (now : Nat)
    (oracle : Nat → FetchOutcome)
    (h : (download_file rawDir url now oracle).result = none) :
    (download_file rawDir url now oracle).written = none := by
  rw [download_file_spec] at h ⊢
  cases hf : firstSucc oracle
  · rfl
  · rw [hf] at h
    exact Option.noConfusion h

/-- C9 witness: a download whose every attempt raises a network error
returns Failure and leaves the target file unwritten. -/
theorem c9_witness :
    (download_file "out/raw" "http://x/t.csv" 0
      (fun _ => FetchOutcome.urlErr "refused")).written = none :=
  c9_failure_writes_nothing "out/raw" "http://x/t.csv" 0
    (fun _ => FetchOutcome.urlErr "refused") (by decide)

/-- C6: a file that is empty or fails to read contributes no rows to the
combined output — the rows are those of the same listing without it — it
is logged SKIPPED (empty) respectively FAILED (reason), and processing
continues with the remaining files. -/
theorem c6_skipped_file_no_effect (outputName : String) (l1 l2 : List AggInput)
    (e : AggInput) (hcsv : csvNamed e = true) (hrows : fileRows e = []) :
    (aggregate_csv_files outputName (l1 ++ e :: l2)).combined.getD [] =
      (aggregate_csv_files outputName (l1 ++ l2)).combined.getD [] ∧
    skipLine e ∈ (aggregate_csv_files outputName (l1 ++ e :: l2)).log := by
  have hfe : (l1 ++ e :: l2).filter csvNamed =
      l1.filter csvNamed ++ e :: l2.filter csvNamed := by
    simp [List.filter_append, List.filter_cons, hcsv]
  have hne1 : (l1.filter csvNamed ++ e :: l2.filter csvNamed).isEmpty = false := by
    simp [List.isEmpty_iff]
  have hLc : (aggregate_csv_files outputName (l1 ++ e :: l2)).combined =
      some ((l1.filter csvNamed ++ e :: l2.filter csvNamed).foldl aggStep
        ⟨false, [], 0, []⟩).out := by
    simp only [aggregate_csv_files, hfe, hne1, Bool.false_eq_true, if_false]
  have hcore : coreS ((l1.filter csvNamed ++ e :: l2.filter csvNamed).foldl aggStep
        ⟨false, [], 0, []⟩) =
      coreS ((l1.filter csvNamed ++ l2.filter csvNamed).foldl aggStep
        ⟨false, [], 0, []⟩) := by
    rw [coreS_foldl, coreS_foldl, List.foldl_append, List.foldl_append,
      List.foldl_cons, coreStep_noop _ _ hrows]
  have hout : ((l1.filter csvNamed ++ e :: l2.filter csvNamed).foldl aggStep
        ⟨false, [], 0, []⟩).out =
      ((l1.filter csvNamed ++ l2.filter csvNamed).foldl aggStep
        ⟨false, [], 0, []⟩).out := congrArg (fun c => c.2.1) hcore
  constructor
  · by_cases h2 : (l1 ++ l2).filter csvNamed = []
    · have hRc : (aggregate_csv_files outputName (l1 ++ l2)).combined = none := by
        simp only [aggregate_csv_files, h2, List.isEmpty_nil, if_true]
      have hnil : l1.filter csvNamed ++ l2.filter csvNamed = [] := by
        rw [← List.filter_append]; exact h2
      rw [hLc, hRc, Option.getD_some, Option.getD_none, hout, hnil]
      rfl
    · have hne2 : ((l1 ++ l2).filter csvNamed).isEmpty = false := by
        cases hh : ((l1 ++ l2).filter csvNamed).isEmpty
        · rfl
        · exact absurd (List.isEmpty_iff.mp hh) h2
      have hRc : (aggregate_csv_files outputName (l1 ++ l2)).combined =
          some (((l1 ++ l2).filter csvNamed).foldl aggStep
            ⟨false, [], 0, []⟩).out := by
        simp only [aggregate_csv_files, hne2, Bool.false_eq_true, if_false]
      rw [hLc, hRc, Option.getD_some, Option.getD_some, hout, List.filter_append]
  · have hLl : (aggregate_csv_files outputName (l1 ++ e :: l2)).log =
        ((l1.filter csvNamed ++ e :: l2.filter csvNamed).foldl aggStep
          ⟨false, [], 0, []⟩).log ++
        [finalLine outputName
          (((l1.filter csvNamed ++ e :: l2.filter csvNamed).foldl aggStep
            ⟨false, [], 0, []⟩).totalData +
           if ((l1.filter csvNamed ++ e :: l2.filter csvNamed).foldl aggStep
            ⟨false, [], 0, []⟩).headerWritten then 1 else 0)] := by
      simp only [aggregate_csv_files, hfe, hne1, Bool.false_eq_true, if_false]
    rw [hLl, List.foldl_append, List.foldl_cons]
    obtain ⟨ext, hext⟩ := foldl_aggStep_log_mono (l2.filter csvNamed)
      (aggStep ((l1.filter csvNamed).foldl aggStep ⟨false, [], 0, []⟩) e)
    rw [hext, aggStep_skip_log _ _ hrows]
    simp [List.mem_append]

/-- C6 witness: a read-error file between two headered files leaves the
combined rows exactly those of the two good files, and its FAILED line is
in the log. -/
theorem c6_witness :
    (aggregate_csv_files "t"
      ([⟨"a.csv", Except.ok ([["h"], ["1"]], true)⟩] ++
        ⟨"e.csv", Except.error "boom"⟩ ::
        [⟨"b.csv", Except.ok ([["h"], ["2"]], true)⟩])).combined.getD [] =
      (aggregate_csv_files "t"
        ([⟨"a.csv", Except.ok ([["h"], ["1"]], true)⟩] ++
          [⟨"b.csv", Except.ok ([["h"], ["2"]], true)⟩])).combined.getD [] ∧
    skipLine ⟨"e.csv", Except.error "boom"⟩ ∈
      (aggregate_csv_files "t"
        ([⟨"a.csv", Except.ok ([["h"], ["1"]], true)⟩] ++
          ⟨"e.csv", Except.error "boom"⟩ ::
          [⟨"b.csv", Except.ok ([["h"], ["2"]], true)⟩])).log :=
  c6_skipped_file_no_effect "t" [⟨"a.csv", Except.ok ([["h"], ["1"]], true)⟩]
    [⟨"b.csv", Except.ok ([["h"], ["2"]], true)⟩] ⟨"e.csv", Except.error "boom"⟩
    (by decide) (by decide)

/-- C7: a message body yielding zero qualifying hyperlinks makes the run
stop right after extraction: the no-URLs line is the only report, no
download is attempted, the raw directory stays empty, and the aggregator
is never invoked, so no combined file exists. -/
theorem c7_no_urls_early_exit (runName rawDir body : String) (now : Nat)
    (fetch : Nat → Nat → FetchOutcome)
    (readCsv : String → List Nat → Except String (List (List String) × Bool))
    (h : extract_csv_urls_from_body body = []) :
    run runName rawDir body now fetch readCsv =
      ⟨[noUrlsLine], [], [], 0, false, none⟩ := by
  simp [run, h]

/-- C7 witness: a body with no anchors triggers the early exit. -/
theorem c7_witness :
    run "t" "raw" "plain text, no links" 0 (fun _ _ => FetchOutcome.exc "x")
      (fun _ _ => Except.error "x") = ⟨[noUrlsLine], [], [], 0, false, none⟩ :=
  c7_no_urls_early_exit "t" "raw" "plain text, no links" 0 _ _ (by decide)

end DTB
